import Mathlib

/-!
Verification of the RF_Cloner firmware control loop (src/code/RF_clone.ino).

The firmware is single-threaded C++ for an ESP32: all state lives in global
variables and every routine is a straight-line mutation of that state, so it
embeds directly as pure state-transformer functions over a `SysState` record.
The millisecond clock `millis()` is a 32-bit unsigned counter; every interval
test in the source is the wraparound subtraction `now - last` on `unsigned
long`, modelled here by `usub32` (arithmetic mod 2^32 on `Nat`).

Side effects other than state mutation are reified as outputs:
`Serial.println` diagnostics become `LogEvent` lists, radio invocations
(`rfTransmitter.send`, `rfReceiver.available`) become `RadioOp` lists, and the
frame drawn by the display routines becomes a `Frame` tag.
-/

namespace RFClone

/-- Timing constant `DEBOUNCE_DELAY` (line 45). -/
def DEBOUNCE_DELAY : Nat := 200

/-- Timing constant `RF_CHECK_INTERVAL` (line 46). -/
def RF_CHECK_INTERVAL : Nat := 3000

/-- Timing constant `ANIM_SPEED` (line 47). -/
def ANIM_SPEED : Nat := 120

/-- Timing constant `TRANSMIT_INTERVAL` (line 48). -/
def TRANSMIT_INTERVAL : Nat := 500

/-- Timing constant `JAM_INTERVAL` (line 49). -/
def JAM_INTERVAL : Nat := 50

/-- `menuItems` (line 65). -/
def menuItems : Int := 3

/-- 2^32, the modulus of ESP32 `unsigned long` arithmetic. -/
def U32 : Nat := 4294967296

/-- C `unsigned long` subtraction `a - b`: wraparound arithmetic mod 2^32.
Total on `Nat` by reducing both operands first. -/
def usub32 (a b : Nat) : Nat := (a % U32 + (U32 - b % U32)) % U32

/-- The `Mode` enum (line 62). -/
inductive Mode
  | MENU
  | READ
  | EMULATE
  | JAM
deriving DecidableEq, Repr

/-- `struct ButtonState` (lines 72-82): current and previous samples of the
four buttons plus the single shared debounce timestamp. -/
structure ButtonState where
  up : Bool
  down : Bool
  select : Bool
  back : Bool
  upLast : Bool
  downLast : Bool
  selectLast : Bool
  backLast : Bool
  lastPress : Nat
deriving DecidableEq, Repr

/-- `struct RFSignal` (lines 86-93): the single captured-signal record. -/
structure RFSignal where
  value : Nat
  bitLength : Nat
  protocol : Nat
  pulseLength : Nat
  valid : Bool
  captureTime : Nat
deriving DecidableEq, Repr

/-- All mutable globals of the sketch (lines 62-105) gathered in one record. -/
structure SysState where
  currentMode : Mode
  menuSelection : Int
  rfModuleConnected : Bool
  lastRFCheck : Nat
  btnState : ButtonState
  capturedSignal : RFSignal
  isTransmitting : Bool
  isJamming : Bool
  lastTransmit : Nat
  lastJam : Nat
  transmitCount : Int
  animFrame : Nat
  lastAnimUpdate : Nat
deriving DecidableEq, Repr

/-- The four raw digital button levels sampled by `readButtons` (lines
172-177), already converted to active-low booleans. -/
structure BtnInput where
  up : Bool
  down : Bool
  select : Bool
  back : Bool
deriving DecidableEq, Repr

/-- A pending event of the RCSwitch receiver as consumed by
`handleRFReception` (lines 274-295): `available` is
`rfReceiver.available()`, the other fields the `getReceived*` accessors. -/
structure RFInput where
  available : Bool
  value : Nat
  bitLength : Nat
  protocol : Nat
  delay : Nat
deriving DecidableEq, Repr

/-- One `Serial.println` diagnostic, reified (string payloads abstracted to
the data they interpolate). -/
inductive LogEvent
  | menuUp (sel : Int)
  | menuDown (sel : Int)
  | selectIn (m : Mode)
  | enterMode (m : Mode)
  | txToggle (b : Bool)
  | errNoSignal
  | jamToggle (b : Bool)
  | backToMenu
  | linkChange (connected : Bool)
deriving DecidableEq, Repr

/-- One invocation of the radio hardware from the mode-dispatch part of
`loop` (lines 638-673): a replay send (`transmitSignal`, lines 302-304),
a jam send (`jamSignals`, lines 320-324), or a receive-availability poll
(`handleRFReception`, line 275). -/
inductive RadioOp
  | txSend (protocol pulseLength value bitLength : Nat)
  | jamSend (protocol value bitLength : Nat)
  | rxPoll
deriving DecidableEq, Repr

/-- Which screen the tick draws: one of the four mode frames or the
`displayWarning "RF Module Error"` overlay (lines 638-673). -/
inductive Frame
  | menuFrame
  | readFrame
  | emulateFrame
  | jamFrame
  | warningOverlay
deriving DecidableEq, Repr

/-- `readButtons()` (lines 172-177): store the sampled levels in the
current-state fields. -/
def readButtonsApply (inp : BtnInput) (s : SysState) : SysState :=
  { s with btnState := { s.btnState with
      up := inp.up, down := inp.down, select := inp.select, back := inp.back } }

/-- `buttonRisingEdge` (lines 179-181). -/
def buttonRisingEdge (current last : Bool) : Bool := current && !last

/-- The UP-button block of `handleButtons` (lines 191-199): in `MENU` the
selection is decremented with wraparound, and on any accepted UP edge
`lastPress` is stamped. -/
def upStep (now : Nat) (s : SysState) : SysState × List LogEvent :=
  if buttonRisingEdge s.btnState.up s.btnState.upLast then
    if s.currentMode = Mode.MENU then
      let sel := if s.menuSelection - 1 < 0 then menuItems - 1 else s.menuSelection - 1
      ({ s with menuSelection := sel, btnState := { s.btnState with lastPress := now } },
       [LogEvent.menuUp sel])
    else
      ({ s with btnState := { s.btnState with lastPress := now } }, [])
  else (s, [])

/-- The DOWN-button block of `handleButtons` (lines 201-209). -/
def downStep (now : Nat) (s : SysState) : SysState × List LogEvent :=
  if buttonRisingEdge s.btnState.down s.btnState.downLast then
    if s.currentMode = Mode.MENU then
      let sel := if s.menuSelection + 1 ≥ menuItems then 0 else s.menuSelection + 1
      ({ s with menuSelection := sel, btnState := { s.btnState with lastPress := now } },
       [LogEvent.menuDown sel])
    else
      ({ s with btnState := { s.btnState with lastPress := now } }, [])
  else (s, [])

/-- The SELECT-button block of `handleButtons` (lines 211-252): the `switch`
on `menuSelection` (no `default`, so an out-of-range selection leaves the
mode unchanged) followed by the unconditional flag/count resets; the
EMULATE branch is guarded by `capturedSignal.valid`; `lastPress` is stamped
at the end of the block in every case. -/
def selectStep (now : Nat) (s : SysState) : SysState × List LogEvent :=
  if buttonRisingEdge s.btnState.select s.btnState.selectLast then
    if s.currentMode = Mode.MENU then
      if s.menuSelection = 0 then
        ({ s with currentMode := Mode.READ, isTransmitting := false, isJamming := false, transmitCount := 0, btnState := { s.btnState with lastPress := now } },
         [LogEvent.selectIn s.currentMode, LogEvent.enterMode Mode.READ])
      else if s.menuSelection = 1 then
        ({ s with currentMode := Mode.EMULATE, isTransmitting := false, isJamming := false, transmitCount := 0, btnState := { s.btnState with lastPress := now } },
         [LogEvent.selectIn s.currentMode, LogEvent.enterMode Mode.EMULATE])
      else if s.menuSelection = 2 then
        ({ s with currentMode := Mode.JAM, isTransmitting := false, isJamming := false, transmitCount := 0, btnState := { s.btnState with lastPress := now } },
         [LogEvent.selectIn s.currentMode, LogEvent.enterMode Mode.JAM])
      else
        ({ s with isTransmitting := false, isJamming := false, transmitCount := 0, btnState := { s.btnState with lastPress := now } },
         [LogEvent.selectIn s.currentMode])
    else if s.currentMode = Mode.EMULATE then
      if s.capturedSignal.valid then
        ({ s with isTransmitting := !s.isTransmitting, transmitCount := 0, lastTransmit := 0, btnState := { s.btnState with lastPress := now } },
         [LogEvent.selectIn s.currentMode, LogEvent.txToggle (!s.isTransmitting)])
      else
        ({ s with btnState := { s.btnState with lastPress := now } },
         [LogEvent.selectIn s.currentMode, LogEvent.errNoSignal])
    else if s.currentMode = Mode.JAM then
      ({ s with isJamming := !s.isJamming, lastJam := 0, btnState := { s.btnState with lastPress := now } },
       [LogEvent.selectIn s.currentMode, LogEvent.jamToggle (!s.isJamming)])
    else
      ({ s with btnState := { s.btnState with lastPress := now } },
       [LogEvent.selectIn s.currentMode])
  else (s, [])

/-- The BACK-button block of `handleButtons` (lines 254-261). -/
def backStep (now : Nat) (s : SysState) : SysState × List LogEvent :=
  if buttonRisingEdge s.btnState.back s.btnState.backLast then
    ({ s with currentMode := Mode.MENU, isTransmitting := false, isJamming := false, btnState := { s.btnState with lastPress := now } },
     [LogEvent.backToMenu])
  else (s, [])

/-- The trailing previous-state update of `handleButtons` (lines 263-267). -/
def snapshotStep (s : SysState) : SysState :=
  { s with btnState := { s.btnState with
      upLast := s.btnState.up, downLast := s.btnState.down,
      selectLast := s.btnState.select, backLast := s.btnState.back } }

/-- `handleButtons()` (lines 183-268): sample the buttons, return early if
inside the shared debounce window (skipping the snapshot update), otherwise
run the four edge blocks in source order and finish with the snapshot
update. -/
def handleButtons (inp : BtnInput) (now : Nat) (s0 : SysState) :
    SysState × List LogEvent :=
  let s := readButtonsApply inp s0
  if usub32 now s.btnState.lastPress < DEBOUNCE_DELAY then
    (s, [])
  else
    let r1 := upStep now s
    let r2 := downStep now r1.1
    let r3 := selectStep now r2.1
    let r4 := backStep now r3.1
    (snapshotStep r4.1, r1.2 ++ r2.2 ++ r3.2 ++ r4.2)

/-- `handleRFReception()` (lines 274-295): consume a pending receiver event;
a zero value is noise and leaves the record untouched, a nonzero value
overwrites every field of `capturedSignal` and sets `valid`. -/
def handleRFReception (rf : RFInput) (now : Nat) (s : SysState) : SysState :=
  if rf.available then
    if rf.value ≠ 0 then
      { s with capturedSignal := { value := rf.value, bitLength := rf.bitLength, protocol := rf.protocol, pulseLength := rf.delay, valid := true, captureTime := now } }
    else s
  else s

/-- `transmitSignal()` (lines 297-312): if the 500ms gate elapsed and the
capture is valid, configure the transmitter from the stored record, send,
increment `transmitCount` and stamp `lastTransmit`. The emitted
`RadioOp.txSend` reifies the `setProtocol`/`setPulseLength`/`send` calls. -/
def transmitSignal (now : Nat) (s : SysState) : SysState × Option RadioOp :=
  if TRANSMIT_INTERVAL ≤ usub32 now s.lastTransmit then
    if s.capturedSignal.valid then
      ({ s with transmitCount := s.transmitCount + 1, lastTransmit := now },
       some (RadioOp.txSend s.capturedSignal.protocol s.capturedSignal.pulseLength s.capturedSignal.value s.capturedSignal.bitLength))
    else (s, none)
  else (s, none)

/-- `jamSignals()` (lines 314-328): if the 50ms gate elapsed, send a random
24-bit value on protocol `(animFrame % 3) + 1` and stamp `lastJam`; `rnd`
stands for the `random(1, 16777215)` draw. -/
def jamSignals (now rnd : Nat) (s : SysState) : SysState × Option RadioOp :=
  if JAM_INTERVAL ≤ usub32 now s.lastJam then
    ({ s with lastJam := now }, some (RadioOp.jamSend (s.animFrame % 3 + 1) rnd 24))
  else (s, none)

/-- The mode-dispatch `switch` of `loop()` (lines 638-673): per-mode radio
action and frame, with the `!rfModuleConnected` guard substituting the
warning overlay in READ/EMULATE/JAM. `RadioOp.rxPoll` records the
`rfReceiver.available()` poll performed by `handleRFReception`. -/
def modeDispatch (rf : RFInput) (now rnd : Nat) (s : SysState) :
    SysState × List RadioOp × Frame :=
  match s.currentMode with
  | Mode.MENU => (s, [], Frame.menuFrame)
  | Mode.READ =>
      if !s.rfModuleConnected then (s, [], Frame.warningOverlay)
      else (handleRFReception rf now s, [RadioOp.rxPoll], Frame.readFrame)
  | Mode.EMULATE =>
      if !s.rfModuleConnected then (s, [], Frame.warningOverlay)
      else if s.isTransmitting then
        let r := transmitSignal now s
        (r.1, r.2.toList, Frame.emulateFrame)
      else (s, [], Frame.emulateFrame)
  | Mode.JAM =>
      if !s.rfModuleConnected then (s, [], Frame.warningOverlay)
      else if s.isJamming then
        let r := jamSignals now rnd s
        (r.1, r.2.toList, Frame.jamFrame)
      else (s, [], Frame.jamFrame)

/-- The periodic RF-module recheck at the top of `loop()` (lines 616-626):
`tNow` is the `millis()` read in the comparison, `tStamp` the later read
stored into `lastRFCheck`, `result` the outcome of `checkRFModule()`. -/
def rfCheckStep (tNow tStamp : Nat) (result : Bool) (s : SysState) :
    SysState × List LogEvent :=
  if RF_CHECK_INTERVAL < usub32 tNow s.lastRFCheck then
    ({ s with rfModuleConnected := result, lastRFCheck := tStamp },
     if s.rfModuleConnected ≠ result then [LogEvent.linkChange result] else [])
  else (s, [])

/-- The animation-frame advance of `loop()` (lines 628-632). -/
def animStep (tNow tStamp : Nat) (s : SysState) : SysState :=
  if ANIM_SPEED < usub32 tNow s.lastAnimUpdate then
    { s with animFrame := (s.animFrame + 1) % 1000, lastAnimUpdate := tStamp }
  else s

/-- The distinct `millis()` reads made during one `loop()` iteration, in
source order (lines 617, 625, 629, 631, 186, and the reads inside the
dispatched mode action). -/
structure TickClock where
  tCheck : Nat
  tCheckStamp : Nat
  tAnim : Nat
  tAnimStamp : Nat
  tBtn : Nat
  tDispatch : Nat
deriving DecidableEq, Repr

/-- The external inputs consumed by one `loop()` iteration. -/
structure TickInput where
  btn : BtnInput
  rf : RFInput
  checkResult : Bool
  rnd : Nat
deriving DecidableEq, Repr

/-- One iteration of `loop()` (lines 615-676): RF-module recheck, animation
advance, button handling, then the mode dispatch. -/
def loopTick (clk : TickClock) (inp : TickInput) (s : SysState) :
    SysState × List LogEvent × List RadioOp × Frame :=
  let rA := rfCheckStep clk.tCheck clk.tCheckStamp inp.checkResult s
  let sB := animStep clk.tAnim clk.tAnimStamp rA.1
  let rC := handleButtons inp.btn clk.tBtn sB
  let rD := modeDispatch inp.rf clk.tDispatch inp.rnd rC.1
  (rD.1, rA.2 ++ rC.2, rD.2.1, rD.2.2)

/-- The state on entry to the first `loop()` iteration: the global
initializers (lines 63-105) as refined by `setup()` (lines 556-609), which
snapshots the initial button levels `b` into both current and previous
fields and stores the boot `checkRFModule()` result `r`. -/
def initState (b : BtnInput) (r : Bool) : SysState :=
  { currentMode := Mode.MENU
    menuSelection := 0
    rfModuleConnected := r
    lastRFCheck := 0
    btnState := { up := b.up, down := b.down, select := b.select, back := b.back, upLast := b.up, downLast := b.down, selectLast := b.select, backLast := b.back, lastPress := 0 }
    capturedSignal := { value := 0, bitLength := 0, protocol := 0, pulseLength := 0, valid := false, captureTime := 0 }
    isTransmitting := false
    isJamming := false
    lastTransmit := 0
    lastJam := 0
    transmitCount := 0
    animFrame := 0
    lastAnimUpdate := 0 }

/-- Iterate `transmitSignal` over a list of true (unwrapped) times; each call
sees the wrapped clock `t % 2^32` exactly as `millis()` would report it.
This is the replay path as driven by EMULATE-mode ticks with
`isTransmitting` set (line 657). -/
def runTransmit : List Nat → SysState → SysState × List RadioOp
  | [], s => (s, [])
  | t :: ts, s =>
      let r := transmitSignal (t % U32) s
      let rest := runTransmit ts r.1
      (rest.1, r.2.toList ++ rest.2)

/-- The send the replay path performs for a stored record (lines 302-304). -/
def sendOf (sig : RFSignal) : RadioOp :=
  RadioOp.txSend sig.protocol sig.pulseLength sig.value sig.bitLength

/-- A convenient baseline state: fresh boot with no buttons pressed and a
healthy RF module. -/
def sBase : SysState := initState { up := false, down := false, select := false, back := false } true

/-- Input with only UP held. -/
def inpUpOnly : BtnInput := { up := true, down := false, select := false, back := false }

/-- Input with only SELECT held. -/
def inpSelOnly : BtnInput := { up := false, down := false, select := true, back := false }

/-- Input with only BACK held. -/
def inpBackOnly : BtnInput := { up := false, down := false, select := false, back := true }

/-- Concrete state for the C1 counterexample: menu at boot, a press accepted
at `millis() = 100`. -/
def sC1 : SysState := { sBase with btnState := { sBase.btnState with lastPress := 100 } }

/-- Concrete state for the C7 counterexample: EMULATE mode entered, nothing
captured yet. -/
def sC7 : SysState := { sBase with currentMode := Mode.EMULATE }

/-- A concrete captured record, the one of the spec's end-to-end scenario. -/
def sigW : RFSignal := { value := 11259154, bitLength := 24, protocol := 1, pulseLength := 350, valid := true, captureTime := 700 }

/-- EMULATE mode with a valid capture, transmission armed. -/
def sTxW : SysState := { sBase with currentMode := Mode.EMULATE, capturedSignal := sigW, isTransmitting := true }

/-- A concrete nonzero receiver event. -/
def rfEvW : RFInput := { available := true, value := 11259154, bitLength := 24, protocol := 1, delay := 350 }

/-- A concrete zero-value (noise) receiver event. -/
def rfEvZero : RFInput := { available := true, value := 0, bitLength := 24, protocol := 1, delay := 350 }

/-- An idle receiver (no pending event). -/
def rfIdle : RFInput := { available := false, value := 0, bitLength := 0, protocol := 0, delay := 0 }

/-- A concrete tick clock. -/
def clkW : TickClock := { tCheck := 4000, tCheckStamp := 4105, tAnim := 4105, tAnimStamp := 4105, tBtn := 4106, tDispatch := 4106 }

/-- A concrete tick input: no buttons, a pending nonzero capture, link up. -/
def tickInpW : TickInput := { btn := { up := false, down := false, select := false, back := false }, rf := rfEvW, checkResult := true, rnd := 12345 }

/-! ### Arithmetic facts about wraparound subtraction -/

/-- On true times that are in order and less than 2^32 apart, `usub32` of the
wrapped clock readings recovers the true elapsed time. -/
theorem usub32_sub (x y : Nat) (h1 : y ≤ x) (h2 : x - y < U32) :
    usub32 x y = x - y := by
  simp only [usub32, U32] at *
  omega

/-- `usub32` only depends on its first argument mod 2^32. -/
theorem usub32_mod_left (a b : Nat) : usub32 (a % U32) b = usub32 a b := by
  simp only [usub32, U32]
  omega

/-- `usub32` only depends on its second argument mod 2^32. -/
theorem usub32_mod_right (a b : Nat) : usub32 a (b % U32) = usub32 a b := by
  simp only [usub32, U32]
  omega

/-! ### Structural lemmas about the button steps -/

/-- `upStep` touches `btnState` only by possibly stamping `lastPress`. -/
theorem upStep_btnState (now : Nat) (s : SysState) :
    (upStep now s).1.btnState =
      { s.btnState with lastPress :=
          if buttonRisingEdge s.btnState.up s.btnState.upLast = true then now
          else s.btnState.lastPress } := by
  unfold upStep
  split_ifs <;> rfl

/-- `downStep` touches `btnState` only by possibly stamping `lastPress`. -/
theorem downStep_btnState (now : Nat) (s : SysState) :
    (downStep now s).1.btnState =
      { s.btnState with lastPress :=
          if buttonRisingEdge s.btnState.down s.btnState.downLast = true then now
          else s.btnState.lastPress } := by
  unfold downStep
  split_ifs <;> rfl

/-- `selectStep` touches `btnState` only by possibly stamping `lastPress`. -/
theorem selectStep_btnState (now : Nat) (s : SysState) :
    (selectStep now s).1.btnState =
      { s.btnState with lastPress :=
          if buttonRisingEdge s.btnState.select s.btnState.selectLast = true then now
          else s.btnState.lastPress } := by
  unfold selectStep
  split_ifs <;> rfl

/-- `backStep` touches `btnState` only by possibly stamping `lastPress`. -/
theorem backStep_btnState (now : Nat) (s : SysState) :
    (backStep now s).1.btnState =
      { s.btnState with lastPress :=
          if buttonRisingEdge s.btnState.back s.btnState.backLast = true then now
          else s.btnState.lastPress } := by
  unfold backStep
  split_ifs <;> rfl

/-- No button step writes the captured-signal record. -/
theorem upStep_capturedSignal (now : Nat) (s : SysState) :
    (upStep now s).1.capturedSignal = s.capturedSignal := by
  unfold upStep
  split_ifs <;> rfl

theorem downStep_capturedSignal (now : Nat) (s : SysState) :
    (downStep now s).1.capturedSignal = s.capturedSignal := by
  unfold downStep
  split_ifs <;> rfl

theorem selectStep_capturedSignal (now : Nat) (s : SysState) :
    (selectStep now s).1.capturedSignal = s.capturedSignal := by
  unfold selectStep
  split_ifs <;> rfl

theorem backStep_capturedSignal (now : Nat) (s : SysState) :
    (backStep now s).1.capturedSignal = s.capturedSignal := by
  unfold backStep
  split_ifs <;> rfl

/-- UP and DOWN never change the mode. -/
theorem upStep_currentMode (now : Nat) (s : SysState) :
    (upStep now s).1.currentMode = s.currentMode := by
  unfold upStep
  split_ifs <;> rfl

theorem downStep_currentMode (now : Nat) (s : SysState) :
    (downStep now s).1.currentMode = s.currentMode := by
  unfold downStep
  split_ifs <;> rfl

/-- SELECT and BACK never change the menu selection. -/
theorem selectStep_menuSelection (now : Nat) (s : SysState) :
    (selectStep now s).1.menuSelection = s.menuSelection := by
  unfold selectStep
  split_ifs <;> rfl

theorem backStep_menuSelection (now : Nat) (s : SysState) :
    (backStep now s).1.menuSelection = s.menuSelection := by
  unfold backStep
  split_ifs <;> rfl

/-- A step whose button shows no rising edge is a no-op. -/
theorem upStep_noEdge (now : Nat) (s : SysState)
    (h : buttonRisingEdge s.btnState.up s.btnState.upLast = false) :
    upStep now s = (s, []) := by
  unfold upStep
  rw [if_neg (by simp [h])]

theorem downStep_noEdge (now : Nat) (s : SysState)
    (h : buttonRisingEdge s.btnState.down s.btnState.downLast = false) :
    downStep now s = (s, []) := by
  unfold downStep
  rw [if_neg (by simp [h])]

theorem selectStep_noEdge (now : Nat) (s : SysState)
    (h : buttonRisingEdge s.btnState.select s.btnState.selectLast = false) :
    selectStep now s = (s, []) := by
  unfold selectStep
  rw [if_neg (by simp [h])]

theorem backStep_noEdge (now : Nat) (s : SysState)
    (h : buttonRisingEdge s.btnState.back s.btnState.backLast = false) :
    backStep now s = (s, []) := by
  unfold backStep
  rw [if_neg (by simp [h])]

/-- The BACK block on an accepted edge (lines 255-261). -/
theorem backStep_edge (now : Nat) (s : SysState)
    (h : buttonRisingEdge s.btnState.back s.btnState.backLast = true) :
    backStep now s =
      ({ s with currentMode := Mode.MENU, isTransmitting := false, isJamming := false, btnState := { s.btnState with lastPress := now } },
       [LogEvent.backToMenu]) := by
  unfold backStep
  rw [if_pos h]

/-! ### Claim C2: link-gated radio suppression -/

/-- C2: whenever the link-health flag is false and the current mode is Read,
Emulate, or Jam, the mode dispatch of a loop tick performs no radio send and
no receive-poll (the emitted `RadioOp` list is empty) and renders the
warning overlay instead of the mode's normal frame. The state is returned
unchanged, so if the flag stays false the same conclusion applies to every
tick of the unhealthy period. -/
theorem link_unhealthy_suppresses_radio (rf : RFInput) (now rnd : Nat) (s : SysState)
    (hlink : s.rfModuleConnected = false)
    (hmode : s.currentMode = Mode.READ ∨ s.currentMode = Mode.EMULATE ∨ s.currentMode = Mode.JAM) :
    modeDispatch rf now rnd s = (s, [], Frame.warningOverlay) := by
  rcases hmode with h | h | h <;> simp [modeDispatch, h, hlink]

/-- Witness for C2 at a concrete unhealthy Read-mode state. -/
theorem link_unhealthy_suppresses_radio_witness :
    modeDispatch rfEvW 5000 0 { sBase with currentMode := Mode.READ, rfModuleConnected := false } =
      ({ sBase with currentMode := Mode.READ, rfModuleConnected := false }, [], Frame.warningOverlay) :=
  link_unhealthy_suppresses_radio rfEvW 5000 0 _ (by decide) (by decide)

/-! ### Claim C4: zero captures discarded, nonzero captures overwrite -/

/-- C4: on a receive-poll with a pending event, a zero received value leaves
the captured-signal record (and the whole state) unchanged, while a nonzero
value overwrites every field of the record from the event and the current
clock and sets `valid`. -/
theorem capture_zero_discard_nonzero_overwrite (rf : RFInput) (now : Nat) (s : SysState)
    (hav : rf.available = true) :
    (rf.value = 0 → handleRFReception rf now s = s) ∧
    (rf.value ≠ 0 → handleRFReception rf now s =
      { s with capturedSignal := { value := rf.value, bitLength := rf.bitLength, protocol := rf.protocol, pulseLength := rf.delay, valid := true, captureTime := now } }) := by
  refine ⟨fun h0 => ?_, fun h0 => ?_⟩
  · simp [handleRFReception, hav, h0]
  · simp [handleRFReception, hav, h0]

/-- Witness for C4: a concrete nonzero capture overwrites the record. -/
theorem capture_zero_discard_nonzero_overwrite_witness :
    handleRFReception rfEvW 700 sBase =
      { sBase with capturedSignal := { value := rfEvW.value, bitLength := rfEvW.bitLength, protocol := rfEvW.protocol, pulseLength := rfEvW.delay, valid := true, captureTime := 700 } } :=
  (capture_zero_discard_nonzero_overwrite rfEvW 700 sBase (by decide)).2 (by decide)

/-! ### Claim C9: wraparound-safe interval tests -/

/-- C9: every elapsed-interval test of the program (the debounce window in
`handleButtons`, the RF-module recheck and animation gates in `loop`, and
the transmit and jam gates) is the wraparound subtraction `now - last`
compared against the interval, and therefore decides exactly as the true
elapsed time would whenever the true elapsed time is below 2^32 — in
particular across a wrap of the 32-bit millisecond clock. `rtNow` and
`rtLast` are true (unwrapped) times; `· % U32` is what `millis()` reports. -/
theorem interval_tests_wrap_safe (rtNow rtLast : Nat) (h1 : rtLast ≤ rtNow)
    (h2 : rtNow - rtLast < U32) :
    (usub32 (rtNow % U32) (rtLast % U32) < DEBOUNCE_DELAY ↔ rtNow - rtLast < DEBOUNCE_DELAY) ∧
    (RF_CHECK_INTERVAL < usub32 (rtNow % U32) (rtLast % U32) ↔ RF_CHECK_INTERVAL < rtNow - rtLast) ∧
    (ANIM_SPEED < usub32 (rtNow % U32) (rtLast % U32) ↔ ANIM_SPEED < rtNow - rtLast) ∧
    (TRANSMIT_INTERVAL ≤ usub32 (rtNow % U32) (rtLast % U32) ↔ TRANSMIT_INTERVAL ≤ rtNow - rtLast) ∧
    (JAM_INTERVAL ≤ usub32 (rtNow % U32) (rtLast % U32) ↔ JAM_INTERVAL ≤ rtNow - rtLast) := by
  have key : usub32 (rtNow % U32) (rtLast % U32) = rtNow - rtLast := by
    rw [usub32_mod_left, usub32_mod_right, usub32_sub rtNow rtLast h1 h2]
  rw [key]
  exact ⟨Iff.rfl, Iff.rfl, Iff.rfl, Iff.rfl, Iff.rfl⟩

/-- Witness for C9 across a clock wrap: a transmit gate stamped 100ms before
the wrap, tested 500ms after it, correctly reads 600ms elapsed. -/
theorem interval_tests_wrap_safe_witness :
    TRANSMIT_INTERVAL ≤ usub32 (4294967796 % U32) (4294967196 % U32) ↔
      TRANSMIT_INTERVAL ≤ 4294967796 - 4294967196 :=
  (interval_tests_wrap_safe 4294967796 4294967196 (by decide) (by decide)).2.2.2.1

/-- Inside the debounce window `handleButtons` returns after storing the
fresh samples: no edge is handled and, in particular, the previous-state
snapshot is NOT updated (the early `return` at line 188 skips lines
263-267). -/
theorem handleButtons_early (inp : BtnInput) (now : Nat) (s : SysState)
    (h : usub32 now s.btnState.lastPress < DEBOUNCE_DELAY) :
    handleButtons inp now s = (readButtonsApply inp s, []) := by
  simp only [handleButtons]
  rw [if_pos (show usub32 now (readButtonsApply inp s).btnState.lastPress < DEBOUNCE_DELAY from h)]

/-! ### Claim C1 (corrected): snapshots are skipped by the early return -/

/-- C1 counterexample: with a press accepted at 100ms, a fresh UP press
sampled at 150ms falls inside the debounce window; the claim predicts the
previous-state snapshot becomes `true`, but the code's early return leaves
it `false` — and as a consequence the very same edge IS handled by a later
call (at 350ms, still held), moving the menu selection from 0 to 2: the
edge is queued, not dropped. -/
theorem snapshot_claim_counterexample :
    usub32 150 sC1.btnState.lastPress < DEBOUNCE_DELAY ∧
    inpUpOnly.up = true ∧
    sC1.btnState.upLast = false ∧
    (handleButtons inpUpOnly 150 sC1).1.btnState.upLast = false ∧
    (handleButtons inpUpOnly 350 (handleButtons inpUpOnly 150 sC1).1).1.menuSelection = 2 := by
  decide

/-- C1 amended: the previous-state snapshot is updated only when the call
does NOT return early. Inside the debounce window the call stores the fresh
samples and changes nothing else (snapshots keep their old values, so the
edge stays pending); outside the window the snapshots are set to the
just-sampled current state at the end of the call. -/
theorem snapshot_update_amended (inp : BtnInput) (now : Nat) (s : SysState) :
    (usub32 now s.btnState.lastPress < DEBOUNCE_DELAY →
       handleButtons inp now s = (readButtonsApply inp s, [])) ∧
    (¬ usub32 now s.btnState.lastPress < DEBOUNCE_DELAY →
       (handleButtons inp now s).1.btnState.upLast = inp.up ∧
       (handleButtons inp now s).1.btnState.downLast = inp.down ∧
       (handleButtons inp now s).1.btnState.selectLast = inp.select ∧
       (handleButtons inp now s).1.btnState.backLast = inp.back) := by
  refine ⟨fun h => handleButtons_early inp now s h, fun h => ?_⟩
  simp only [handleButtons]
  rw [if_neg (show ¬ usub32 now (readButtonsApply inp s).btnState.lastPress < DEBOUNCE_DELAY from h)]
  simp [snapshotStep, backStep_btnState, selectStep_btnState, downStep_btnState, upStep_btnState, readButtonsApply]

/-- Witness for C1 amended, at the early-return input of the counterexample
state. -/
theorem snapshot_update_amended_witness :
    handleButtons inpUpOnly 150 sC1 = (readButtonsApply inpUpOnly sC1, []) :=
  (snapshot_update_amended inpUpOnly 150 sC1).1 (by decide)

/-! ### Claim C10: every accepted edge stamps the shared debounce timestamp -/

/-- C10: outside the debounce window, a rising edge on any of the four
buttons stamps `lastPress := now`, even when the edge has no other effect;
consequently any call within the next 200ms returns early (samples stored,
nothing handled) for all four buttons. -/
theorem any_edge_stamps_lastPress (inp : BtnInput) (now : Nat) (s : SysState)
    (hdb : ¬ usub32 now s.btnState.lastPress < DEBOUNCE_DELAY)
    (hedge : buttonRisingEdge inp.up s.btnState.upLast = true ∨
      buttonRisingEdge inp.down s.btnState.downLast = true ∨
      buttonRisingEdge inp.select s.btnState.selectLast = true ∨
      buttonRisingEdge inp.back s.btnState.backLast = true) :
    (handleButtons inp now s).1.btnState.lastPress = now ∧
    (∀ (inp2 : BtnInput) (now2 : Nat), usub32 now2 now < DEBOUNCE_DELAY →
       handleButtons inp2 now2 (handleButtons inp now s).1 =
         (readButtonsApply inp2 (handleButtons inp now s).1, [])) := by
  have hstamp : (handleButtons inp now s).1.btnState.lastPress = now := by
    simp only [handleButtons]
    rw [if_neg (show ¬ usub32 now (readButtonsApply inp s).btnState.lastPress < DEBOUNCE_DELAY from hdb)]
    simp only [snapshotStep, backStep_btnState, selectStep_btnState, downStep_btnState, upStep_btnState, readButtonsApply]
    rcases hedge with h | h | h | h <;> simp [h]
  refine ⟨hstamp, fun inp2 now2 h2 => ?_⟩
  exact handleButtons_early inp2 now2 _ (by rw [hstamp]; exact h2)

/-- Witness for C10: a BACK press in MENU mode (no state effect) at 250ms
stamps the debounce timestamp, and a call at 300ms is suppressed. -/
theorem any_edge_stamps_lastPress_witness :
    (handleButtons inpBackOnly 250 sBase).1.btnState.lastPress = 250 ∧
    handleButtons inpUpOnly 300 (handleButtons inpBackOnly 250 sBase).1 =
      (readButtonsApply inpUpOnly (handleButtons inpBackOnly 250 sBase).1, []) := by
  have h := any_edge_stamps_lastPress inpBackOnly 250 sBase (by decide) (by decide)
  exact ⟨h.1, h.2 inpUpOnly 300 (by decide)⟩

/-- How `upStep` transforms the menu selection (decrement with wraparound,
only on an accepted edge in MENU). -/
theorem upStep_menuSelection (now : Nat) (s : SysState) :
    (upStep now s).1.menuSelection =
      if buttonRisingEdge s.btnState.up s.btnState.upLast = true then
        (if s.currentMode = Mode.MENU then
          (if s.menuSelection - 1 < 0 then menuItems - 1 else s.menuSelection - 1)
         else s.menuSelection)
      else s.menuSelection := by
  unfold upStep
  split_ifs <;> rfl

/-- How `downStep` transforms the menu selection. -/
theorem downStep_menuSelection (now : Nat) (s : SysState) :
    (downStep now s).1.menuSelection =
      if buttonRisingEdge s.btnState.down s.btnState.downLast = true then
        (if s.currentMode = Mode.MENU then
          (if s.menuSelection + 1 ≥ menuItems then 0 else s.menuSelection + 1)
         else s.menuSelection)
      else s.menuSelection := by
  unfold downStep
  split_ifs <;> rfl

/-! ### Claim C6: mode entry and exit reset the transmission state -/

/-- C6: outside the debounce window, an accepted SELECT edge in MENU mode
(with no other simultaneous edge) enters READ, EMULATE, or JAM according to
`menuSelection` 0, 1, or 2 and resets `isTransmitting`, `isJamming`, and
`transmitCount`; an accepted BACK edge in any mode — whatever other edges
coincide — returns to MENU with both flags false. Hence on the next entry
into Emulate or Jam both flags are false and `transmitCount` is 0. -/
theorem mode_entry_and_back_resets (inp : BtnInput) (now : Nat) (s : SysState)
    (hdb : ¬ usub32 now s.btnState.lastPress < DEBOUNCE_DELAY) :
    (s.currentMode = Mode.MENU →
     buttonRisingEdge inp.select s.btnState.selectLast = true →
     buttonRisingEdge inp.up s.btnState.upLast = false →
     buttonRisingEdge inp.down s.btnState.downLast = false →
     buttonRisingEdge inp.back s.btnState.backLast = false →
       ((s.menuSelection = 0 →
           (handleButtons inp now s).1.currentMode = Mode.READ ∧
           (handleButtons inp now s).1.isTransmitting = false ∧
           (handleButtons inp now s).1.isJamming = false ∧
           (handleButtons inp now s).1.transmitCount = 0) ∧
        (s.menuSelection = 1 →
           (handleButtons inp now s).1.currentMode = Mode.EMULATE ∧
           (handleButtons inp now s).1.isTransmitting = false ∧
           (handleButtons inp now s).1.isJamming = false ∧
           (handleButtons inp now s).1.transmitCount = 0) ∧
        (s.menuSelection = 2 →
           (handleButtons inp now s).1.currentMode = Mode.JAM ∧
           (handleButtons inp now s).1.isTransmitting = false ∧
           (handleButtons inp now s).1.isJamming = false ∧
           (handleButtons inp now s).1.transmitCount = 0))) ∧
    (buttonRisingEdge inp.back s.btnState.backLast = true →
       (handleButtons inp now s).1.currentMode = Mode.MENU ∧
       (handleButtons inp now s).1.isTransmitting = false ∧
       (handleButtons inp now s).1.isJamming = false) := by
  constructor
  · intro hmode hsel hup hdown hback
    refine ⟨fun h0 => ?_, fun h0 => ?_, fun h0 => ?_⟩ <;>
    · simp only [handleButtons]
      rw [if_neg (show ¬ usub32 now (readButtonsApply inp s).btnState.lastPress < DEBOUNCE_DELAY from hdb)]
      simp [upStep, downStep, selectStep, backStep, snapshotStep, readButtonsApply, hup, hdown, hsel, hback, hmode, h0]
  · intro hback
    simp only [handleButtons]
    rw [if_neg (show ¬ usub32 now (readButtonsApply inp s).btnState.lastPress < DEBOUNCE_DELAY from hdb)]
    simp [backStep_edge, selectStep_btnState, downStep_btnState, upStep_btnState, readButtonsApply, hback, snapshotStep]

/-- Witness for C6: SELECT at selection 0 from a fresh menu enters READ with
all transmission state reset. -/
theorem mode_entry_and_back_resets_witness :
    (handleButtons inpSelOnly 250 sBase).1.currentMode = Mode.READ ∧
    (handleButtons inpSelOnly 250 sBase).1.isTransmitting = false ∧
    (handleButtons inpSelOnly 250 sBase).1.isJamming = false ∧
    (handleButtons inpSelOnly 250 sBase).1.transmitCount = 0 :=
  ((mode_entry_and_back_resets inpSelOnly 250 sBase (by decide)).1 (by decide)
    (by decide) (by decide) (by decide) (by decide)).1 (by decide)

/-! ### Claim C7 (corrected): the rejected Emulate SELECT is not a pure no-op -/

/-- C7 counterexample: in EMULATE mode with no valid capture, an accepted
SELECT edge does NOT leave the program state unchanged — the shared debounce
timestamp `lastPress` is stamped (line 251 runs regardless of the rejection)
and the button snapshots are updated; the diagnostic log is emitted. -/
theorem emulate_select_no_capture_counterexample :
    sC7.currentMode = Mode.EMULATE ∧
    sC7.capturedSignal.valid = false ∧
    ¬ usub32 300 sC7.btnState.lastPress < DEBOUNCE_DELAY ∧
    (handleButtons inpSelOnly 300 sC7).1 ≠ sC7 ∧
    (handleButtons inpSelOnly 300 sC7).1.btnState.lastPress = 300 ∧
    sC7.btnState.lastPress = 0 ∧
    (handleButtons inpSelOnly 300 sC7).2 = [LogEvent.selectIn Mode.EMULATE, LogEvent.errNoSignal] := by
  decide

/-- C7 amended: an accepted SELECT edge in Emulate mode with a valid capture
toggles `isTransmitting` and resets `transmitCount` and the transmit gate
timer; with no valid capture it changes nothing except the button-state
bookkeeping shared by every accepted edge (fresh samples, snapshot update,
and the `lastPress` stamp) and emits only the diagnostic log line — no
other field of the program state is touched and no warning frame results
from it. -/
theorem emulate_select_no_capture_amended (inp : BtnInput) (now : Nat) (s : SysState)
    (hdb : ¬ usub32 now s.btnState.lastPress < DEBOUNCE_DELAY)
    (hmode : s.currentMode = Mode.EMULATE)
    (hsel : buttonRisingEdge inp.select s.btnState.selectLast = true)
    (hup : buttonRisingEdge inp.up s.btnState.upLast = false)
    (hdown : buttonRisingEdge inp.down s.btnState.downLast = false)
    (hback : buttonRisingEdge inp.back s.btnState.backLast = false) :
    (s.capturedSignal.valid = false →
       handleButtons inp now s =
         ({ s with btnState := { up := inp.up, down := inp.down, select := inp.select, back := inp.back, upLast := inp.up, downLast := inp.down, selectLast := inp.select, backLast := inp.back, lastPress := now } },
          [LogEvent.selectIn Mode.EMULATE, LogEvent.errNoSignal])) ∧
    (s.capturedSignal.valid = true →
       (handleButtons inp now s).1.isTransmitting = !s.isTransmitting ∧
       (handleButtons inp now s).1.transmitCount = 0 ∧
       (handleButtons inp now s).1.lastTransmit = 0 ∧
       (handleButtons inp now s).2 =
         [LogEvent.selectIn Mode.EMULATE, LogEvent.txToggle (!s.isTransmitting)]) := by
  refine ⟨fun hv => ?_, fun hv => ?_⟩ <;>
  · simp only [handleButtons]
    rw [if_neg (show ¬ usub32 now (readButtonsApply inp s).btnState.lastPress < DEBOUNCE_DELAY from hdb)]
    simp [upStep, downStep, selectStep, backStep, snapshotStep, readButtonsApply, hup, hdown, hsel, hback, hmode, hv]

/-- Witness for C7 amended at the counterexample state. -/
theorem emulate_select_no_capture_amended_witness :
    handleButtons inpSelOnly 300 sC7 =
      ({ sC7 with btnState := { up := inpSelOnly.up, down := inpSelOnly.down, select := inpSelOnly.select, back := inpSelOnly.back, upLast := inpSelOnly.up, downLast := inpSelOnly.down, selectLast := inpSelOnly.select, backLast := inpSelOnly.back, lastPress := 300 } },
       [LogEvent.selectIn Mode.EMULATE, LogEvent.errNoSignal]) :=
  (emulate_select_no_capture_amended inpSelOnly 300 sC7 (by decide) (by decide)
    (by decide) (by decide) (by decide) (by decide)).1 (by decide)

/-! ### Claim C8: menu wraparound and range invariant -/

/-- C8: in MENU mode outside the debounce window, an accepted UP edge from
selection 0 wraps to 2 and an accepted DOWN edge from selection 2 wraps to
0; and under any input whatsoever the selection stays in [0, 3). -/
theorem menu_wraparound (inp : BtnInput) (now : Nat) (s : SysState)
    (hdb : ¬ usub32 now s.btnState.lastPress < DEBOUNCE_DELAY)
    (hmode : s.currentMode = Mode.MENU) :
    (s.menuSelection = 0 →
     buttonRisingEdge inp.up s.btnState.upLast = true →
     buttonRisingEdge inp.down s.btnState.downLast = false →
       (handleButtons inp now s).1.menuSelection = 2) ∧
    (s.menuSelection = 2 →
     buttonRisingEdge inp.down s.btnState.downLast = true →
     buttonRisingEdge inp.up s.btnState.upLast = false →
       (handleButtons inp now s).1.menuSelection = 0) ∧
    (0 ≤ s.menuSelection → s.menuSelection < 3 →
       0 ≤ (handleButtons inp now s).1.menuSelection ∧
       (handleButtons inp now s).1.menuSelection < 3) := by
  refine ⟨fun h0 hup hdown => ?_, fun h0 hdown hup => ?_, fun hlo hhi => ?_⟩
  · simp only [handleButtons]
    rw [if_neg (show ¬ usub32 now (readButtonsApply inp s).btnState.lastPress < DEBOUNCE_DELAY from hdb)]
    simp only [snapshotStep, backStep_menuSelection, backStep_btnState, selectStep_menuSelection, selectStep_btnState, downStep_menuSelection, downStep_btnState, downStep_currentMode, upStep_menuSelection, upStep_btnState, upStep_currentMode, readButtonsApply]
    norm_num [hup, hdown, hmode, h0, menuItems]
  · simp only [handleButtons]
    rw [if_neg (show ¬ usub32 now (readButtonsApply inp s).btnState.lastPress < DEBOUNCE_DELAY from hdb)]
    simp only [snapshotStep, backStep_menuSelection, backStep_btnState, selectStep_menuSelection, selectStep_btnState, downStep_menuSelection, downStep_btnState, downStep_currentMode, upStep_menuSelection, upStep_btnState, upStep_currentMode, readButtonsApply]
    norm_num [hup, hdown, hmode, h0, menuItems]
  · simp only [handleButtons]
    rw [if_neg (show ¬ usub32 now (readButtonsApply inp s).btnState.lastPress < DEBOUNCE_DELAY from hdb)]
    simp only [snapshotStep, backStep_menuSelection, backStep_btnState, selectStep_menuSelection, selectStep_btnState, downStep_menuSelection, downStep_btnState, downStep_currentMode, upStep_menuSelection, upStep_btnState, upStep_currentMode, readButtonsApply, menuItems]
    constructor <;> split_ifs <;> omega

/-- Witness for C8: UP from selection 0 wraps to 2. -/
theorem menu_wraparound_witness :
    (handleButtons inpUpOnly 250 sBase).1.menuSelection = 2 :=
  (menu_wraparound inpUpOnly 250 sBase (by decide) (by decide)).1 (by decide)
    (by decide) (by decide)

/-! ### Preservation of the captured record across the tick phases -/

theorem handleButtons_capturedSignal (inp : BtnInput) (now : Nat) (s : SysState) :
    (handleButtons inp now s).1.capturedSignal = s.capturedSignal := by
  simp only [handleButtons]
  split_ifs
  · rfl
  · simp [snapshotStep, backStep_capturedSignal, selectStep_capturedSignal, downStep_capturedSignal, upStep_capturedSignal, readButtonsApply]

theorem rfCheckStep_capturedSignal (tNow tStamp : Nat) (result : Bool) (s : SysState) :
    (rfCheckStep tNow tStamp result s).1.capturedSignal = s.capturedSignal := by
  unfold rfCheckStep
  split_ifs <;> rfl

theorem animStep_capturedSignal (tNow tStamp : Nat) (s : SysState) :
    (animStep tNow tStamp s).capturedSignal = s.capturedSignal := by
  unfold animStep
  split_ifs <;> rfl

theorem transmitSignal_capturedSignal (now : Nat) (s : SysState) :
    (transmitSignal now s).1.capturedSignal = s.capturedSignal := by
  unfold transmitSignal
  split_ifs <;> rfl

theorem jamSignals_capturedSignal (now rnd : Nat) (s : SysState) :
    (jamSignals now rnd s).1.capturedSignal = s.capturedSignal := by
  unfold jamSignals
  split_ifs <;> rfl

/-- The receive path can only raise the `valid` flag, and raises it only on
an available nonzero event. -/
theorem handleRFReception_valid (rf : RFInput) (now : Nat) (s : SysState) :
    (s.capturedSignal.valid = true →
       (handleRFReception rf now s).capturedSignal.valid = true) ∧
    ((handleRFReception rf now s).capturedSignal.valid = true →
       s.capturedSignal.valid = true ∨ (rf.available = true ∧ rf.value ≠ 0)) := by
  unfold handleRFReception
  split_ifs with h1 h2 <;> simp_all

/-- The mode dispatch can only raise the `valid` flag, and raises it only on
an available nonzero receive event. -/
theorem modeDispatch_valid (rf : RFInput) (now rnd : Nat) (s : SysState) :
    (s.capturedSignal.valid = true →
       (modeDispatch rf now rnd s).1.capturedSignal.valid = true) ∧
    ((modeDispatch rf now rnd s).1.capturedSignal.valid = true →
       s.capturedSignal.valid = true ∨ (rf.available = true ∧ rf.value ≠ 0)) := by
  cases hm : s.currentMode <;>
    simp [modeDispatch, hm, transmitSignal_capturedSignal, jamSignals_capturedSignal] <;>
    (try split_ifs) <;>
    first
      | exact handleRFReception_valid rf now s
      | tauto
      | simp_all [transmitSignal_capturedSignal, jamSignals_capturedSignal]

/-! ### Claim C5: the valid flag is monotone -/

/-- C5: the captured-signal record's `valid` flag is false at boot, and over
one full `loop` iteration it never goes from true to false (no operation of
the system clears it); moreover it can only become true through an available
nonzero receive event — so it stays false until the first nonzero capture.
There is a single record: a capture only overwrites its fields. -/
theorem capture_valid_monotone (clk : TickClock) (inp : TickInput) (s : SysState)
    (b : BtnInput) (r : Bool) :
    ((initState b r).capturedSignal.valid = false) ∧
    (s.capturedSignal.valid = true →
       (loopTick clk inp s).1.capturedSignal.valid = true) ∧
    ((loopTick clk inp s).1.capturedSignal.valid = true →
       s.capturedSignal.valid = true ∨ (inp.rf.available = true ∧ inp.rf.value ≠ 0)) := by
  refine ⟨rfl, ?_, ?_⟩ <;>
  · simp only [loopTick]
    intro h
    have hA := rfCheckStep_capturedSignal clk.tCheck clk.tCheckStamp inp.checkResult s
    have hB := animStep_capturedSignal clk.tAnim clk.tAnimStamp (rfCheckStep clk.tCheck clk.tCheckStamp inp.checkResult s).1
    have hC := handleButtons_capturedSignal inp.btn clk.tBtn (animStep clk.tAnim clk.tAnimStamp (rfCheckStep clk.tCheck clk.tCheckStamp inp.checkResult s).1)
    have hD := modeDispatch_valid inp.rf clk.tDispatch inp.rnd (handleButtons inp.btn clk.tBtn (animStep clk.tAnim clk.tAnimStamp (rfCheckStep clk.tCheck clk.tCheckStamp inp.checkResult s).1)).1
    first
      | exact hD.1 (by rw [hC, hB, hA]; exact h)
      | (rcases hD.2 h with h1 | h1
         · left
           rw [hC, hB, hA] at h1
           exact h1
         · right
           exact h1)

/-- Witness for C5: a tick of a state holding a valid capture keeps it
valid. -/
theorem capture_valid_monotone_witness :
    (loopTick clkW tickInpW sTxW).1.capturedSignal.valid = true :=
  (capture_valid_monotone clkW tickInpW sTxW
      { up := false, down := false, select := false, back := false } true).2.1 (by decide)

/-! ### Behaviour of the gated replay transmit -/

/-- If the 500ms gate has not elapsed, `transmitSignal` does nothing. -/
theorem transmitSignal_gate_closed (now : Nat) (s : SysState)
    (h : usub32 now s.lastTransmit < TRANSMIT_INTERVAL) :
    transmitSignal now s = (s, none) := by
  unfold transmitSignal
  rw [if_neg (by omega)]

/-- `transmitSignal` either does nothing, or — when the gate elapsed and the
capture is valid — emits exactly the stored record's send, increments the
count by one and stamps the gate. -/
theorem transmitSignal_split (now : Nat) (s : SysState) :
    transmitSignal now s = (s, none) ∨
    (s.capturedSignal.valid = true ∧ TRANSMIT_INTERVAL ≤ usub32 now s.lastTransmit ∧
     transmitSignal now s =
       ({ s with transmitCount := s.transmitCount + 1, lastTransmit := now },
        some (sendOf s.capturedSignal))) := by
  unfold transmitSignal
  split_ifs with h1 h2
  · exact Or.inr ⟨h2, h1, rfl⟩
  · exact Or.inl rfl
  · exact Or.inl rfl

/-- Once the gate is stamped at a time `u`, no tick whose true time lies in
the 500ms window starting at `u` can send. -/
theorem runTransmit_blocked (ts : List Nat) (u : Nat) :
    ∀ s : SysState, (∀ t ∈ ts, u ≤ t ∧ t < u + TRANSMIT_INTERVAL) →
      s.lastTransmit = u % U32 → runTransmit ts s = (s, []) := by
  induction ts with
  | nil => intro s _ _; rfl
  | cons t ts ih =>
      intro s hwin hlast
      have ht := hwin t (List.mem_cons_self t ts)
      have hgate : usub32 (t % U32) s.lastTransmit < TRANSMIT_INTERVAL := by
        rw [hlast, usub32_mod_left, usub32_mod_right,
          usub32_sub t u ht.1 (by simp only [TRANSMIT_INTERVAL, U32] at *; omega)]
        omega
      simp only [runTransmit, transmitSignal_gate_closed (t % U32) s hgate]
      rw [ih s (fun t2 ht2 => hwin t2 (List.mem_cons_of_mem t ht2)) hlast]
      rfl

/-! ### Claim C3: at most one send per 500ms window -/

/-- C3: over any sequence of replay ticks whose true (unwrapped) clock times
are nondecreasing and all lie inside one 500ms window, the replay path
invokes the radio send primitive at most once; every send it ever emits
carries the stored protocol, pulse length, value and bit length; and
`transmitCount` advances by exactly the number of sends (one per
invocation). The loop runs this path only while `isTransmitting` is set
(line 657); the valid-capture hypothesis mirrors the claim's context. -/
theorem transmit_at_most_once_per_window (ts : List Nat) (s : SysState) (T : Nat)
    (hmono : List.Pairwise (fun a b => a ≤ b) ts)
    (hwin : ∀ t ∈ ts, T ≤ t ∧ t < T + TRANSMIT_INTERVAL)
    (hvalid : s.capturedSignal.valid = true) :
    (runTransmit ts s).2.length ≤ 1 ∧
    (∀ op ∈ (runTransmit ts s).2, op = sendOf s.capturedSignal) ∧
    (runTransmit ts s).1.transmitCount =
      s.transmitCount + ((runTransmit ts s).2.length : Int) := by
  induction ts generalizing s with
  | nil =>
      refine ⟨by simp [runTransmit], by simp [runTransmit], by simp [runTransmit]⟩
  | cons t ts ih =>
      rcases List.pairwise_cons.mp hmono with ⟨hhead, htail⟩
      have hT := hwin t (List.mem_cons_self t ts)
      rcases transmitSignal_split (t % U32) s with hs | ⟨_, _, hs⟩
      · have hrec := ih s htail (fun t2 ht2 => hwin t2 (List.mem_cons_of_mem t ht2)) hvalid
        simp only [runTransmit, hs, Option.toList_none, List.nil_append]
        exact hrec
      · have hblock := runTransmit_blocked ts t
          ({ s with transmitCount := s.transmitCount + 1, lastTransmit := t % U32 })
          (fun t2 ht2 => ⟨hhead t2 ht2,
            by have := (hwin t2 (List.mem_cons_of_mem t ht2)).2
               simp only [TRANSMIT_INTERVAL] at *
               omega⟩)
          rfl
        simp only [runTransmit, hs, hblock, Option.toList_some]
        refine ⟨by simp, by simp, by simp⟩

/-- Witness for C3: two ticks at 1000ms and 1200ms from an armed state with
a valid capture produce exactly one send, carrying the stored fields. -/
theorem transmit_at_most_once_per_window_witness :
    (runTransmit [1000, 1200] sTxW).2.length ≤ 1 ∧
    (∀ op ∈ (runTransmit [1000, 1200] sTxW).2, op = sendOf sTxW.capturedSignal) ∧
    (runTransmit [1000, 1200] sTxW).1.transmitCount =
      sTxW.transmitCount + (((runTransmit [1000, 1200] sTxW).2.length : Nat) : Int) :=
  transmit_at_most_once_per_window [1000, 1200] sTxW 1000 (by decide) (by decide) (by decide)

end RFClone
